import Mathlib

/-!
Shallow embedding of `lakecli` (src/main.rs): a command-line tool that opens a
table reference either as a Delta table (via the external `deltalake` library)
or as a flat Parquet file, and dispatches the subcommands
files / schema / version / metadata / history / query on it.

External collaborators (the deltalake backend and the DataFusion session
context) are modelled as an oracle structure `Env` of functions; the code of
this repository is embedded as functions over that oracle.  Printed output is
returned as a list of lines; a `Result` that main propagates is an `Except`.
-/

deriving instance DecidableEq for Except

/-- Rust `Debug` rendering of a string: surrounding quotes, `\` and `"`
escaped.  Control-character escapes are not modelled; the inputs used here
contain none. -/
def rustDebugStr (s : String) : String :=
  "\"" ++ String.join (s.toList.map fun c =>
    if c = '\\' then "\\\\" else if c = '"' then "\\\"" else String.mk [c]) ++ "\""

/-- Rust `Debug` rendering of a list of strings, as for `Vec<String>`. -/
def listDebug (l : List String) : String :=
  "[" ++ String.intercalate ", " (l.map rustDebugStr) ++ "]"

/-- Rust `Debug` rendering of a string-to-string map, as for
`HashMap<String, String>`. -/
def mapDebug (m : List (String × String)) : String :=
  "\x7b" ++ String.intercalate ", "
    (m.map fun kv => rustDebugStr kv.1 ++ ": " ++ rustDebugStr kv.2) ++ "\x7d"

/-- Pad a string on the right with spaces to a minimum width, Rust `{: <w}`. -/
def padRight (s : String) (w : Nat) : String :=
  s ++ String.mk (List.replicate (w - s.length) ' ')

/-- A run of `w` dashes, Rust `{:-<w}` applied to the empty string. -/
def dashes (w : Nat) : String :=
  String.mk (List.replicate w '-')

/-- Split a character list at every occurrence of the separator. -/
def splitChar (sep : Char) : List Char → List (List Char)
  | [] => [[]]
  | c :: rest =>
    let r := splitChar sep rest
    if c = sep then [] :: r
    else
      match r with
      | [] => [[c]]
      | h :: t => (c :: h) :: t

/-- Model of Rust `Path::file_name` (for UTF-8 paths): the last path
component, skipping empty and `.` components; `None` when there is no
component or the last one is `..`. -/
def fileNameOf (p : String) : Option String :=
  let comps := (splitChar '/' p.toList).filter (fun c => !c.isEmpty && c != ['.'])
  match comps.getLast? with
  | none => none
  | some c => if c = ['.', '.'] then none else some (String.mk c)

/-- The characters after the last `.` of the list, or `none` if no `.`
occurs. -/
def extAfterLastDot : List Char → Option (List Char)
  | [] => none
  | c :: rest =>
    match extAfterLastDot rest with
    | some e => some e
    | none => if c = '.' then some rest else none

/-- Model of `Path::new(p).extension().and_then(OsStr::to_str)` for UTF-8
paths: the part of the file name after its last dot, where a dot at the very
first position of the file name (a hidden file) does not count. -/
def pathExtension (p : String) : Option String :=
  match fileNameOf p with
  | none => none
  | some f =>
    match f.toList with
    | [] => none
    | _ :: rest => (extAfterLastDot rest).map fun cs => String.mk cs

/-- `deltalake::DeltaTableError`, abstracted to its message. -/
structure DeltaTableError where
  msg : String
deriving DecidableEq, Repr

/-- `datafusion::error::DataFusionError`, abstracted to its message. -/
structure DataFusionError where
  msg : String
deriving DecidableEq, Repr

/-- One field of a Delta `StructType` schema: the code prints its name, the
`Display` rendering of its data type, and its nullability. -/
structure StructField where
  name : String
  data_type : String
  nullable : Bool
deriving DecidableEq, Repr

/-- `deltalake::kernel::StructType`: an ordered field list. -/
structure StructType where
  fields : List StructField
deriving DecidableEq, Repr

/-- One commit record of a Delta table history, abstracted to its `Debug`
rendering, which is all the code uses of it. -/
structure CommitInfo where
  debug : String
deriving DecidableEq, Repr

/-- The Delta table metadata record: its optional logical `name`, plus its
`Debug` rendering carried as data. -/
structure Metadata where
  name : Option String
  debug : String
deriving DecidableEq, Repr

/-- One field of a DataFusion `DFSchema`. -/
structure DFField where
  name : String
  data_type : String
  nullable : Bool
deriving DecidableEq, Repr

/-- `datafusion::common::DFSchema`: field list plus schema-level key/value
metadata. -/
structure DFSchema where
  fields : List DFField
  metadata : List (String × String)
deriving DecidableEq, Repr

/-- The state of an opened `deltalake::DeltaTable` as the code observes it:
current version, metadata accessor result, optional schema, file URI listing
result, and the backend's full commit log (most recent first), which the
backend's `history` draws from. -/
structure DeltaTable where
  version : Int
  metadata : Except DeltaTableError Metadata
  schema : Option StructType
  fileUris : Except DeltaTableError (List String)
  commits : List CommitInfo
deriving DecidableEq, Repr

/-- `enum Table` of src/main.rs: a Delta table handle or a flat Parquet file
path. -/
inductive Table where
  | Delta (delta_table : DeltaTable)
  | Parquet (table_path : String)
deriving DecidableEq, Repr

/-- A table source registered in the session context: either a Delta table
provider or a Parquet file with the schema inferred at registration. -/
inductive Source where
  | delta (dt : DeltaTable)
  | parquet (path : String) (schema : DFSchema)
deriving DecidableEq, Repr

/-- `datafusion::prelude::SessionContext`, reduced to its table registry.
Registration prepends; lookup takes the first match, so re-registration
replaces, as DataFusion's `register_table` does. -/
structure Ctx where
  tables : List (String × Source)
deriving DecidableEq, Repr

/-- `datafusion::dataframe::DataFrame`, reduced to the schema the code reads
from it. -/
structure DataFrame where
  schema : DFSchema
deriving DecidableEq, Repr

/-- The external collaborators, as oracles: the deltalake open and history
calls, DataFusion parquet registration (schema inference), the schema a
Delta provider exposes as a dataframe, SQL planning/execution and result
rendering. -/
structure Env where
  open_table_with_storage_options :
    String → List (String × String) → Except DeltaTableError DeltaTable
  deltaHistory : DeltaTable → Option Nat → Except DeltaTableError (List CommitInfo)
  registerParquet : String → Except DataFusionError DFSchema
  deltaDFSchema : DeltaTable → DFSchema
  sql : Ctx → String → Except DataFusionError DataFrame
  showDF : DataFrame → Except DataFusionError (List String)

/-- `SessionContext::register_table`: record the source under the name. -/
def Ctx.register (ctx : Ctx) (name : String) (src : Source) : Ctx :=
  ⟨(name, src) :: ctx.tables⟩

/-- `SessionContext::table(name)`: look the name up and produce a dataframe
over the registered source, or a DataFusion error when absent. -/
def Ctx.table (ctx : Ctx) (env : Env) (name : String) : Except DataFusionError DataFrame :=
  match ctx.tables.lookup name with
  | some (Source.delta dt) => .ok ⟨env.deltaDFSchema dt⟩
  | some (Source.parquet _ sch) => .ok ⟨sch⟩
  | none => .error ⟨"table not found: " ++ name⟩

/-- `enum Error` of src/main.rs. -/
inductive Error where
  | UnknownTableFormat
  | Delta (e : DeltaTableError)
  | DataFusion (e : DataFusionError)
deriving DecidableEq, Repr

/-- `derive(Debug)` rendering of the `Table::Parquet` variant, as the
unsupported-operation messages print it. -/
def parquetDebug (table_path : String) : String :=
  "Parquet \x7b table_path: " ++ rustDebugStr table_path ++ " \x7d"

/-- The header lines shared by `print_delta_schema` and
`print_dataframe_schema`. -/
def schemaHeader : List String :=
  [padRight "name" 20 ++ " | " ++ padRight "type" 8 ++ " | " ++ padRight "nullable" 10,
   dashes 20 ++ " + " ++ dashes 8 ++ " + " ++ dashes 10]

/-- One row of `print_delta_schema`. -/
def deltaFieldRow (f : StructField) : String :=
  padRight f.name 20 ++ " | " ++ padRight f.data_type 8 ++ " | " ++ padRight (toString f.nullable) 10

/-- `print_delta_schema` of src/main.rs, as its printed lines. -/
def print_delta_schema (s : StructType) : List String :=
  schemaHeader ++ s.fields.map deltaFieldRow

/-- One row of `print_dataframe_schema`. -/
def dfFieldRow (f : DFField) : String :=
  padRight f.name 20 ++ " | " ++ padRight f.data_type 8 ++ " | " ++ padRight (toString f.nullable) 10

/-- `print_dataframe_schema` of src/main.rs, as its printed lines. -/
def print_dataframe_schema (s : DFSchema) : List String :=
  schemaHeader ++ s.fields.map dfFieldRow

/-- `Table::register_table`: for a Delta table, read the metadata (errors
propagate), register under the logical name when one exists, always register
under `"t"`, and return the dataframe for `"t"`; for a Parquet table,
register the file under `"t"` (schema inference may fail) and return the
dataframe for `"t"`.  Returns the updated context alongside the dataframe. -/
def Table.register_table (t : Table) (env : Env) (ctx : Ctx) :
    Except Error (Ctx × DataFrame) :=
  match t with
  | .Delta delta_table =>
    match delta_table.metadata with
    | .error e => .error (.Delta e)
    | .ok metadata =>
      let ctx1 := match metadata.name with
        | some table_name => ctx.register table_name (.delta delta_table)
        | none => ctx
      let ctx2 := ctx1.register "t" (.delta delta_table)
      match ctx2.table env "t" with
      | .ok df => .ok (ctx2, df)
      | .error e => .error (.DataFusion e)
  | .Parquet table_path =>
    match env.registerParquet table_path with
    | .error e => .error (.DataFusion e)
    | .ok sch =>
      let ctx2 := ctx.register "t" (.parquet table_path sch)
      match ctx2.table env "t" with
      | .ok df => .ok (ctx2, df)
      | .error e => .error (.DataFusion e)

/-- `Table::files`: list the Delta table file URIs, or the single wrapped
path for a Parquet table. -/
def Table.files (t : Table) : Except Error (List String) :=
  match t with
  | .Delta delta_table =>
    match delta_table.fileUris with
    | .ok fs => .ok ["files: " ++ listDebug fs]
    | .error e => .error (.Delta e)
  | .Parquet table_path => .ok ["files: " ++ listDebug [table_path]]

/-- `Table::schema`: print the Delta schema when present, a no-schema notice
when absent; for Parquet, register for query execution and print the
dataframe schema. -/
def Table.schema (t : Table) (env : Env) (ctx : Ctx) :
    Except Error (Ctx × List String) :=
  match t with
  | .Delta delta_table =>
    match delta_table.schema with
    | some s => .ok (ctx, print_delta_schema s)
    | none => .ok (ctx, ["No schema found in delta table!"])
  | .Parquet _ =>
    match t.register_table env ctx with
    | .error e => .error e
    | .ok (ctx2, df) => .ok (ctx2, print_dataframe_schema df.schema)

/-- `Table::version`: print the Delta table version; for any other variant,
print the unsupported message and succeed. -/
def Table.version (t : Table) : Except Error (List String) :=
  match t with
  | .Delta delta_table => .ok ["version: " ++ toString delta_table.version]
  | .Parquet table_path =>
    .ok ["'version' call unsupported for: " ++ parquetDebug table_path]

/-- `Table::metadata`: print the Delta metadata record (retrieval failure
propagates as an error); for Parquet, register for query execution and print
the dataframe schema's metadata map. -/
def Table.metadata (t : Table) (env : Env) (ctx : Ctx) :
    Except Error (Ctx × List String) :=
  match t with
  | .Delta delta_table =>
    match delta_table.metadata with
    | .ok md => .ok (ctx, ["metadata: " ++ md.debug])
    | .error e => .error (.Delta e)
  | .Parquet _ =>
    match t.register_table env ctx with
    | .error e => .error e
    | .ok (ctx2, df) => .ok (ctx2, ["metadata: " ++ mapDebug df.schema.metadata])

/-- `Table::history`: forward the limit argument verbatim to the backend's
history call and print each returned commit; for any other variant, print
the unsupported message and succeed. -/
def Table.history (t : Table) (env : Env) (limit : Option Nat) :
    Except Error (List String) :=
  match t with
  | .Delta delta_table =>
    match env.deltaHistory delta_table limit with
    | .ok history => .ok ("history:" :: history.map CommitInfo.debug)
    | .error e => .error (.Delta e)
  | .Parquet table_path =>
    .ok ["'history' call unsupported for: " ++ parquetDebug table_path]

/-- `Table::query`: register the table, submit the caller's SQL text to the
execution context unmodified, and render the resulting dataframe; any engine
error propagates as a DataFusion error. -/
def Table.query (t : Table) (env : Env) (ctx : Ctx) (query : String) :
    Except Error (Ctx × List String) :=
  match t.register_table env ctx with
  | .error e => .error e
  | .ok (ctx2, _df) =>
    match env.sql ctx2 query with
    | .error e => .error (.DataFusion e)
    | .ok dataframe =>
      match env.showDF dataframe with
      | .error e => .error (.DataFusion e)
      | .ok lines => .ok (ctx2, lines)

/-- `open_table` of src/main.rs: dispatch on the reference's extension —
`"parquet"` yields a flat Parquet handle wrapping the path verbatim, any
other extension is an unknown-format error, and no extension attempts a
Delta open through the external library with default (empty) storage
options, whose failure propagates wrapping the cause. -/
def open_table (env : Env) (table_name : String) : Except Error Table :=
  match pathExtension table_name with
  | some "parquet" => .ok (.Parquet table_name)
  | some _ => .error .UnknownTableFormat
  | none =>
    match env.open_table_with_storage_options table_name [] with
    | .ok table => .ok (.Delta table)
    | .error e => .error (.Delta e)

/-- `enum Commands` of src/main.rs. -/
inductive Commands where
  | Files (table : String)
  | History (table : String) (limit : Option Nat)
  | Metadata (table : String)
  | Schema (table : String)
  | Version (table : String)
  | Query (table : String) (query : String)
deriving DecidableEq, Repr

/-- `main` of src/main.rs after argument parsing: create a fresh session
context, open the table, and dispatch to the matching operation; the printed
lines are returned on success and the first error propagates. -/
def mainRun (env : Env) (cmd : Commands) : Except Error (List String) :=
  let ctx : Ctx := ⟨[]⟩
  match cmd with
  | .Files table =>
    match open_table env table with
    | .error e => .error e
    | .ok t => t.files
  | .Schema table =>
    match open_table env table with
    | .error e => .error e
    | .ok t => (t.schema env ctx).map (·.2)
  | .Version table =>
    match open_table env table with
    | .error e => .error e
    | .ok t => t.version
  | .Metadata table =>
    match open_table env table with
    | .error e => .error e
    | .ok t => (t.metadata env ctx).map (·.2)
  | .History table limit =>
    match open_table env table with
    | .error e => .error e
    | .ok t => t.history env limit
  | .Query table query =>
    match open_table env table with
    | .error e => .error e
    | .ok t => (t.query env ctx query).map (·.2)

/-- The process exit status `main`'s result produces: 0 on `Ok`, nonzero on
`Err`. -/
def exitCode (r : Except Error (List String)) : Nat :=
  match r with
  | .ok _ => 0
  | .error _ => 1

/-- Modelled from the spec: the external deltalake backend's
`history(limit)` semantics, which src/main.rs only forwards to — "return up
to `limit` most recent commit records, most recent first, or all of them if
`limit` is absent", drawing from the backend's commit log held most recent
first. -/
def specHistory (commits : List CommitInfo) (limit : Option Nat) : List CommitInfo :=
  match limit with
  | none => commits
  | some n => commits.take n

/-- Whether `sub` occurs as a contiguous substring of `s`. -/
def strContains (s sub : String) : Bool :=
  decide (sub.toList <:+: s.toList)

/-- A concrete oracle environment used for witnesses: the Delta open always
fails, parquet registration infers an empty schema, SQL planning fails
echoing the submitted query text, rendering yields no lines. -/
def env0 : Env :=
  ⟨fun _ _ => .error ⟨"no delta store"⟩,
   fun dt l => .ok (specHistory dt.commits l),
   fun _ => .ok ⟨[], []⟩,
   fun _ => ⟨[], []⟩,
   fun _ q => .error ⟨q⟩,
   fun _ => .ok []⟩

/-- A concrete Delta table used for witnesses: version 3, metadata with
logical name `"events"`, no schema, no files, three commits most recent
first. -/
def dt0 : DeltaTable :=
  ⟨3, .ok ⟨some "events", "Metadata"⟩, none, .ok [],
   [⟨"c2"⟩, ⟨"c1"⟩, ⟨"c0"⟩]⟩

/-- A concrete Delta table used for witnesses: metadata without a logical
name, one-field schema. -/
def dtS : DeltaTable :=
  ⟨0, .ok ⟨none, "Metadata"⟩, some ⟨[⟨"id", "long", false⟩]⟩, .ok [], []⟩

/-- A concrete oracle environment like `env0` except that parquet
registration fails: the referenced file cannot be read. -/
def envF : Env :=
  ⟨fun _ _ => .error ⟨"no delta store"⟩,
   fun dt l => .ok (specHistory dt.commits l),
   fun _ => .error ⟨"no parquet file"⟩,
   fun _ => ⟨[], []⟩,
   fun _ q => .error ⟨q⟩,
   fun _ => .ok []⟩

/-- Lower-case an ASCII letter, leaving every other character unchanged. -/
def lowerChar (c : Char) : Char :=
  if 65 ≤ c.toNat ∧ c.toNat ≤ 90 then Char.ofNat (c.toNat + 32) else c

/-- Lower-case the ASCII letters of a string: two strings related by
`lowerAscii` differ only in letter case. -/
def lowerAscii (s : String) : String :=
  String.mk (s.toList.map lowerChar)

/-- Helper shared by the extension-dispatch theorems: an extension other
than the exact string `"parquet"` makes `open_table` fail with the
unknown-table-format error, whatever the oracle environment. -/
theorem open_table_non_parquet_ext (name ext : String)
    (h1 : pathExtension name = some ext) (h2 : ext ≠ "parquet") (env : Env) :
    open_table env name = .error .UnknownTableFormat := by
  unfold open_table
  rw [h1]
  split
  · rename_i heq
    exact absurd (Option.some.inj heq) h2
  · rfl
  · rename_i heq
    exact (Option.some_ne_none ext heq).elim

/-- C1: a reference with extension `"parquet"` yields a Flat (Parquet)
handle wrapping the path verbatim, for every oracle environment — so no
backend call can influence or be required for the result; a reference with
no extension is opened through the external library with default (empty)
storage options, the opened table is wrapped as a Delta handle, and an open
failure surfaces as an error carrying the underlying cause, never as a
table. -/
theorem open_table_extension_dispatch (env : Env) (name : String) :
    (pathExtension name = some "parquet" →
      ∀ env2 : Env, open_table env2 name = .ok (.Parquet name))
    ∧ (pathExtension name = none →
      open_table env name =
        (match env.open_table_with_storage_options name [] with
         | .ok table => .ok (.Delta table)
         | .error e => .error (.Delta e))) := by
  constructor
  · intro h env2
    unfold open_table
    rw [h]
    rfl
  · intro h
    unfold open_table
    rw [h]

/-- Witness for C1 at `"data.parquet"`. -/
theorem open_table_extension_dispatch_witness :
    open_table env0 "data.parquet" = .ok (.Parquet "data.parquet") :=
  (open_table_extension_dispatch env0 "data.parquet").1 (by decide) env0

/-- C2: a reference whose extension exists and is not `"parquet"` fails with
the unknown-table-format error, and the result is the same for every oracle
environment — the backend open and registration calls are never consulted,
so no network or disk access can occur. -/
theorem open_table_unknown_extension (name ext : String)
    (h1 : pathExtension name = some ext) (h2 : ext ≠ "parquet") :
    ∀ env : Env, open_table env name = .error .UnknownTableFormat :=
  fun env => open_table_non_parquet_ext name ext h1 h2 env

/-- Witness for C2 at `"data.csv"`. -/
theorem open_table_unknown_extension_witness :
    open_table env0 "data.csv" = .error .UnknownTableFormat :=
  open_table_unknown_extension "data.csv" "csv" (by decide) (by decide) env0

/-- C3 counterexample: the metadata operation on a Flat (Parquet) handle
does not report the operation as unsupported — with a registration oracle
inferring an empty schema it registers the file under `"t"` and reports the
dataframe schema's (empty) metadata map, an output that does not contain
the word "unsupported". -/
theorem parquet_metadata_not_unsupported :
    Table.metadata (.Parquet "x.parquet") env0 ⟨[]⟩ =
      .ok (⟨[("t", Source.parquet "x.parquet" ⟨[], []⟩)]⟩, ["metadata: \x7b\x7d"])
    ∧ strContains "metadata: \x7b\x7d" "unsupported" = false :=
  ⟨by decide, by decide⟩

/-- C3 amended: the metadata operation on a Flat (Parquet) handle derives
its output via query registration — when parquet registration succeeds with
schema `sch`, it registers the file under `"t"` and reports `sch`'s metadata
map, never the unsupported message; a registration failure propagates as an
error. -/
theorem parquet_metadata_via_registration (env : Env) (ctx : Ctx)
    (table_path : String) :
    (∀ sch, env.registerParquet table_path = .ok sch →
      Table.metadata (.Parquet table_path) env ctx =
        .ok (⟨("t", .parquet table_path sch) :: ctx.tables⟩,
             ["metadata: " ++ mapDebug sch.metadata]))
    ∧ (∀ e, env.registerParquet table_path = .error e →
      Table.metadata (.Parquet table_path) env ctx = .error (.DataFusion e)) := by
  constructor
  · intro sch h
    simp only [Table.metadata, Table.register_table, h]
    rfl
  · intro e h
    simp only [Table.metadata, Table.register_table, h]

/-- Witness for the amended C3 at `"a.parquet"`: the success branch under
`env0` and the failure branch under `envF`. -/
theorem parquet_metadata_via_registration_witness :
    Table.metadata (.Parquet "a.parquet") env0 ⟨[]⟩ =
      .ok (⟨[("t", Source.parquet "a.parquet" ⟨[], []⟩)]⟩,
           ["metadata: " ++ mapDebug ([] : List (String × String))])
    ∧ Table.metadata (.Parquet "a.parquet") envF ⟨[]⟩ =
      .error (.DataFusion ⟨"no parquet file"⟩) :=
  ⟨(parquet_metadata_via_registration env0 ⟨[]⟩ "a.parquet").1 ⟨[], []⟩ rfl,
   (parquet_metadata_via_registration envF ⟨[]⟩ "a.parquet").2 ⟨"no parquet file"⟩ rfl⟩

/-- C4: when the backend's history call follows the spec's contract (all
commits most recent first, truncated to the limit when one is given), the
history operation with no limit returns the entire commit log; with limit
`n` it returns exactly the `n` most recent commits in the same
most-recent-first order, an initial segment of the full history; and for
every limit value the operation forwards that value verbatim to the
backend, substituting no default. -/
theorem history_limit_semantics (env : Env) (dt : DeltaTable) (n : Nat)
    (h : ∀ l, env.deltaHistory dt l = .ok (specHistory dt.commits l)) :
    (∀ l, Table.history (.Delta dt) env l =
      .ok ("history:" :: (specHistory dt.commits l).map CommitInfo.debug))
    ∧ Table.history (.Delta dt) env none =
        .ok ("history:" :: dt.commits.map CommitInfo.debug)
    ∧ Table.history (.Delta dt) env (some n) =
        .ok ("history:" :: (dt.commits.take n).map CommitInfo.debug)
    ∧ specHistory dt.commits (some n) ++ dt.commits.drop n
        = specHistory dt.commits none := by
  refine ⟨?_, ?_, ?_, ?_⟩
  · intro l
    simp only [Table.history, h l]
  · simp only [Table.history, h none]
    rfl
  · simp only [Table.history, h (some n)]
    rfl
  · exact List.take_append_drop n dt.commits

/-- Witness for C4 at a three-commit table with limit 2. -/
theorem history_limit_semantics_witness :
    Table.history (.Delta dt0) env0 (some 2) =
      .ok ("history:" :: (dt0.commits.take 2).map CommitInfo.debug) :=
  (history_limit_semantics env0 dt0 2 (fun _ => rfl)).2.2.1

/-- C5: on a Flat (Parquet) handle, version and history (for every limit)
succeed with exactly one line reporting the call as unsupported for this
table kind — no version number and no commit records are produced. -/
theorem parquet_version_history_unsupported (env : Env) (table_path : String)
    (limit : Option Nat) :
    Table.version (.Parquet table_path) =
      .ok ["'version' call unsupported for: " ++ parquetDebug table_path]
    ∧ Table.history (.Parquet table_path) env limit =
      .ok ["'history' call unsupported for: " ++ parquetDebug table_path] :=
  ⟨rfl, rfl⟩

/-- C6: once registration has succeeded with context `ctx2`, the query
operation's result is exactly the engine's response to the caller's SQL
text `q` submitted unmodified (the empty string included) — a planning
error or a rendering error propagates as a query (DataFusion) error, and a
success yields the rendered lines. -/
theorem query_forwards_sql_unmodified (env : Env) (t : Table) (ctx ctx2 : Ctx)
    (df : DataFrame) (q : String)
    (h : t.register_table env ctx = .ok (ctx2, df)) :
    Table.query t env ctx q =
      (match env.sql ctx2 q with
       | .error e => .error (.DataFusion e)
       | .ok dataframe =>
         match env.showDF dataframe with
         | .error e => .error (.DataFusion e)
         | .ok lines => .ok (ctx2, lines)) := by
  simp only [Table.query, h]

/-- Witness for C6: the empty SQL string is forwarded as-is to an engine
whose error echoes the submitted text. -/
theorem query_forwards_sql_unmodified_witness :
    Table.query (.Parquet "x.parquet") env0 ⟨[]⟩ "" = .error (.DataFusion ⟨""⟩) := by
  rw [query_forwards_sql_unmodified env0 (.Parquet "x.parquet") ⟨[]⟩
    ⟨[("t", .parquet "x.parquet" ⟨[], []⟩)]⟩ ⟨⟨[], []⟩⟩ "" (by decide)]
  rfl

/-- C7: registration registers a Delta table whose metadata carries a
logical name under that name and then under the fallback `"t"`; a Delta
table without a logical name, and every Parquet table, is registered only
under `"t"`; the returned dataframe is the one looked up under `"t"`. -/
theorem register_table_names (env : Env) (ctx : Ctx) :
    (∀ dt md n, dt.metadata = .ok md → md.name = some n →
      (Table.Delta dt).register_table env ctx =
        .ok (⟨("t", .delta dt) :: (n, .delta dt) :: ctx.tables⟩,
             ⟨env.deltaDFSchema dt⟩))
    ∧ (∀ dt md, dt.metadata = .ok md → md.name = none →
      (Table.Delta dt).register_table env ctx =
        .ok (⟨("t", .delta dt) :: ctx.tables⟩, ⟨env.deltaDFSchema dt⟩))
    ∧ (∀ path sch, env.registerParquet path = .ok sch →
      (Table.Parquet path).register_table env ctx =
        .ok (⟨("t", .parquet path sch) :: ctx.tables⟩, ⟨sch⟩)) := by
  refine ⟨?_, ?_, ?_⟩
  · intro dt md n h1 h2
    simp only [Table.register_table, h1, h2]
    rfl
  · intro dt md h1 h2
    simp only [Table.register_table, h1, h2]
    rfl
  · intro path sch h
    simp only [Table.register_table, h]
    rfl

/-- Witness for C7: a Delta table named `"events"` ends up registered under
both `"events"` and `"t"`. -/
theorem register_table_names_witness :
    (Table.Delta dt0).register_table env0 ⟨[]⟩ =
      .ok (⟨[("t", .delta dt0), ("events", .delta dt0)]⟩,
           ⟨env0.deltaDFSchema dt0⟩) :=
  (register_table_names env0 ⟨[]⟩).1 dt0 ⟨some "events", "Metadata"⟩ "events" rfl rfl

/-- C8: the schema operation on a Delta handle prints the structured field
rows (name, type, nullable) under the header when a schema is present, and
succeeds with the no-schema notice — not an error — when the schema is
absent. -/
theorem delta_schema_reporting (env : Env) (ctx : Ctx) (dt : DeltaTable) :
    (∀ s, dt.schema = some s →
      Table.schema (.Delta dt) env ctx =
        .ok (ctx, schemaHeader ++ s.fields.map deltaFieldRow))
    ∧ (dt.schema = none →
      Table.schema (.Delta dt) env ctx =
        .ok (ctx, ["No schema found in delta table!"])) := by
  constructor
  · intro s h
    simp only [Table.schema, h]
    rfl
  · intro h
    simp only [Table.schema, h]

/-- Witness for C8 at a one-field schema. -/
theorem delta_schema_reporting_witness :
    Table.schema (.Delta dtS) env0 ⟨[]⟩ =
      .ok (⟨[]⟩, schemaHeader
        ++ (StructType.mk [⟨"id", "long", false⟩]).fields.map deltaFieldRow) :=
  (delta_schema_reporting env0 ⟨[]⟩ dtS).1 ⟨[⟨"id", "long", false⟩]⟩ rfl

/-- C9: on a reference that opens as a Flat (Parquet) handle, the version
and history subcommands print the unsupported message and `main` returns
`Ok`, so the process exit status is 0 — the unsupported-operation class is
uniformly non-fatal here. -/
theorem unsupported_ops_exit_zero (env : Env) (name : String) (limit : Option Nat)
    (h : pathExtension name = some "parquet") :
    mainRun env (.Version name) =
      .ok ["'version' call unsupported for: " ++ parquetDebug name]
    ∧ mainRun env (.History name limit) =
      .ok ["'history' call unsupported for: " ++ parquetDebug name]
    ∧ exitCode (mainRun env (.Version name)) = 0
    ∧ exitCode (mainRun env (.History name limit)) = 0 := by
  have hv : open_table env name = .ok (.Parquet name) := by
    unfold open_table
    rw [h]
    rfl
  have h1 : mainRun env (.Version name) =
      .ok ["'version' call unsupported for: " ++ parquetDebug name] := by
    simp only [mainRun, hv]
    rfl
  have h2 : mainRun env (.History name limit) =
      .ok ["'history' call unsupported for: " ++ parquetDebug name] := by
    simp only [mainRun, hv]
    rfl
  refine ⟨h1, h2, ?_, ?_⟩
  · rw [h1]
    rfl
  · rw [h2]
    rfl

/-- Witness for C9 at `"x.parquet"`. -/
theorem unsupported_ops_exit_zero_witness :
    exitCode (mainRun env0 (.Version "x.parquet")) = 0 :=
  (unsupported_ops_exit_zero env0 "x.parquet" none (by decide)).2.2.1

/-- C10: extension recognition is case-sensitive — every reference whose
extension lower-cases to `"parquet"` without being exactly `"parquet"`
(i.e. differs from it only in letter case) fails with the
unknown-table-format error whatever the oracle environment, and whenever
`open_table` produces a Flat handle the reference's extension is exactly
the lowercase `"parquet"` and the wrapped path is the reference itself. -/
theorem parquet_extension_case_sensitive (name ext : String)
    (h1 : pathExtension name = some ext) (h2 : lowerAscii ext = "parquet")
    (h3 : ext ≠ "parquet") :
    (∀ env : Env, open_table env name = .error .UnknownTableFormat)
    ∧ ∀ (env : Env) (nm p : String), open_table env nm = .ok (.Parquet p) →
        pathExtension nm = some "parquet" ∧ p = nm := by
  constructor
  · exact fun env => open_table_non_parquet_ext name ext h1 h3 env
  · intro env nm p h
    unfold open_table at h
    split at h
    · rename_i heq
      injection h with h4
      injection h4 with h5
      exact ⟨heq, h5.symm⟩
    · exact Except.noConfusion h
    · split at h
      · injection h with h4
        exact Table.noConfusion h4
      · exact Except.noConfusion h

/-- Witness for C10 at `"data.PARQUET"`: the upper-case extension is
rejected while the lowercase one is recognized. -/
theorem parquet_extension_case_sensitive_witness :
    open_table env0 "data.PARQUET" = .error .UnknownTableFormat
    ∧ pathExtension "data.parquet" = some "parquet" :=
  ⟨(parquet_extension_case_sensitive "data.PARQUET" "PARQUET"
      (by decide) (by decide) (by decide)).1 env0,
   ((parquet_extension_case_sensitive "data.PARQUET" "PARQUET"
      (by decide) (by decide) (by decide)).2 env0
      "data.parquet" "data.parquet" (by decide)).1⟩
